import Mathlib

/-!
Verification of the myshop client-side product browsing application.

The application (a React single-page app) keeps its state in a single
provider component.  We embed that state as the structure `AppState` and
each state-mutating callback of the provider (`toggleLike`, `toggleDislike`,
`filterProducts`, `navigateTo`, the `fetchData` effect, the persistence
effects and the `useState` initializers) as a pure state transformer.

Product identifiers are the integer `id` fields served by the catalog
service; we model them as `Nat`.  The browser primitives `JSON.stringify`
and `JSON.parse`, applied by the code only to arrays of product
identifiers, are modelled by an executable encoder and decoder for JSON
arrays of decimal numerals.
-/

/-- A catalog product.  Only the fields the verified logic inspects are
kept: the numeric identifier and the category string. -/
structure Product where
  id : Nat
  category : String
deriving DecidableEq, Repr

/-- The state held by `AppProvider`: one field per `useState` hook. -/
structure AppState where
  products : List Product
  categories : List String
  filteredProducts : List Product
  currentFilter : String
  likedProducts : List Nat
  dislikedProducts : List Nat
  loading : Bool
  error : Option String
  currentView : String
  selectedProduct : Option Product
deriving DecidableEq, Repr

/-- `toggleLike(productId)`: if the id is already in `likedProducts` it is
filtered out; otherwise it is filtered out of `dislikedProducts` and
appended to `likedProducts`. -/
def toggleLike (productId : Nat) (s : AppState) : AppState :=
  if s.likedProducts.contains productId then
    { s with likedProducts := s.likedProducts.filter (fun id => id != productId) }
  else
    { s with
      dislikedProducts := s.dislikedProducts.filter (fun id => id != productId),
      likedProducts := s.likedProducts ++ [productId] }

/-- `toggleDislike(productId)`: symmetric to `toggleLike`, swapping the
two lists. -/
def toggleDislike (productId : Nat) (s : AppState) : AppState :=
  if s.dislikedProducts.contains productId then
    { s with dislikedProducts := s.dislikedProducts.filter (fun id => id != productId) }
  else
    { s with
      likedProducts := s.likedProducts.filter (fun id => id != productId),
      dislikedProducts := s.dislikedProducts ++ [productId] }

/-- `filterProducts(category)`: records the current filter and recomputes
`filteredProducts` from the full catalog; the string `"all"` is the
no-filter sentinel. -/
def filterProducts (category : String) (s : AppState) : AppState :=
  if category = "all" then
    { s with currentFilter := category, filteredProducts := s.products }
  else
    { s with currentFilter := category,
             filteredProducts := s.products.filter (fun p => p.category == category) }

/-- `navigateTo(view, product = null)`: sets the current view and the
selected product (the latter defaulting to `null`, i.e. `none`, at every
call site that omits it). -/
def navigateTo (view : String) (product : Option Product) (s : AppState) : AppState :=
  { s with currentView := view, selectedProduct := product }

/-- One user interaction with the preference store. -/
inductive ToggleOp where
  | like (id : Nat)
  | dislike (id : Nat)
deriving DecidableEq, Repr

/-- Run one toggle interaction. -/
def applyToggle (op : ToggleOp) (s : AppState) : AppState :=
  match op with
  | .like id => toggleLike id s
  | .dislike id => toggleDislike id s

/-- Run a finite sequence of toggle interactions, oldest first. -/
def applyToggles (ops : List ToggleOp) (s : AppState) : AppState :=
  ops.foldl (fun st op => applyToggle op st) s

/-- The mutual-exclusivity invariant of the preference store: no id is in
both `likedProducts` and `dislikedProducts`. -/
def mutualExclusion (s : AppState) : Prop :=
  ∀ id : Nat, ¬(id ∈ s.likedProducts ∧ id ∈ s.dislikedProducts)

/-- The per-identifier preference, derived from the two lists. -/
inductive PrefState where
  | NEUTRAL
  | LIKED
  | DISLIKED
deriving DecidableEq, Repr

/-- The preference the UI shows for an id (a card queries
`likedProducts.includes(id)` and `dislikedProducts.includes(id)`). -/
def prefStateOf (s : AppState) (id : Nat) : PrefState :=
  if s.likedProducts.contains id then .LIKED
  else if s.dislikedProducts.contains id then .DISLIKED
  else .NEUTRAL

/-- The transition table the specification gives for `toggleLike`. -/
def likeStep : PrefState → PrefState
  | .NEUTRAL => .LIKED
  | .LIKED => .NEUTRAL
  | .DISLIKED => .LIKED

/-- The transition table the specification gives for `toggleDislike`. -/
def dislikeStep : PrefState → PrefState
  | .NEUTRAL => .DISLIKED
  | .DISLIKED => .NEUTRAL
  | .LIKED => .DISLIKED

/-! ## JSON encoding of identifier lists

The code persists the two identifier lists with
`localStorage.setItem(key, JSON.stringify(list))` and restores them with
`JSON.parse`.  The values are always arrays of (natural-number) product
identifiers, so we model the two browser primitives by an executable
encoder and decoder for exactly that fragment of JSON:
`"[]"`, `"[7]"`, `"[1,15,3]"`, with decimal numerals and no whitespace. -/

/-- The decimal digit character for `d < 10`. -/
def digitChar (d : Nat) : Char := Char.ofNat (48 + d)

/-- The numeric value of a decimal digit character. -/
def charDigit (c : Char) : Nat := c.toNat - 48

/-- Accumulate the decimal digits of `n` in front of `acc`, most
significant first.  The fuel argument only bounds the recursion; any
fuel at least `n` is sufficient. -/
def encNatCore : Nat → Nat → List Char → List Char
  | 0, _, acc => acc
  | fuel + 1, n, acc =>
    if n = 0 then acc else encNatCore fuel (n / 10) (digitChar (n % 10) :: acc)

/-- Decimal numeral of a natural number, most significant digit first
(what `JSON.stringify` emits for a non-negative integer). -/
def encNat (n : Nat) : List Char :=
  if n = 0 then [Char.ofNat 48] else encNatCore n n []

/-- Characters after the first element of a JSON array: each further
element is preceded by a comma and the array is closed by a bracket. -/
def encTail : List Nat → List Char
  | [] => [Char.ofNat 93]
  | y :: ys => Char.ofNat 44 :: (encNat y ++ encTail ys)

/-- Model of `JSON.stringify` on an array of natural numbers. -/
def jsonStringifyIds (ids : List Nat) : String :=
  match ids with
  | [] => "[]"
  | x :: xs => String.mk (Char.ofNat 91 :: (encNat x ++ encTail xs))

/-- Consume a maximal nonempty prefix of decimal digits and return its
value together with the unconsumed suffix. -/
def readNat (cs : List Char) : Option (Nat × List Char) :=
  let ds := cs.takeWhile Char.isDigit
  if ds.isEmpty then none
  else some (Nat.ofDigits 10 ((ds.map charDigit).reverse), cs.dropWhile Char.isDigit)

/-- Parse the elements of a nonempty JSON number array after the opening
bracket: a numeral, then repeatedly a comma and a numeral, then the
closing bracket ending the input.  The fuel argument only bounds the
recursion; `cs.length` is always sufficient. -/
def parseItemsFuel : Nat → List Char → Option (List Nat)
  | 0, _ => none
  | fuel + 1, cs =>
    match readNat cs with
    | none => none
    | some (n, rest) =>
      match rest with
      | [] => none
      | c :: rest2 =>
        if c = Char.ofNat 93 then (if rest2.isEmpty then some [n] else none)
        else if c = Char.ofNat 44 then (parseItemsFuel fuel rest2).map (n :: ·)
        else none

/-- Parse what follows the opening bracket of a JSON number array. -/
def parseAfterBracket (cs : List Char) : Option (List Nat) :=
  match cs with
  | [] => none
  | c :: rest =>
    if c = Char.ofNat 93 then (if rest.isEmpty then some [] else none)
    else parseItemsFuel cs.length cs

/-- Model of `JSON.parse` restricted to the JSON fragment this program
ever persists: arrays of non-negative decimal numerals.  Any other string
fails to parse (`none` stands for the `SyntaxError` that `JSON.parse`
throws). -/
def jsonParseIds (s : String) : Option (List Nat) :=
  match s.data with
  | [] => none
  | c :: rest => if c = Char.ofNat 91 then parseAfterBracket rest else none

/-! ## Initialization, persistence, and the startup fetch -/

/-- One `useState` initializer of `AppProvider`:
`saved ? JSON.parse(saved) : []` applied to `localStorage.getItem(key)`.
`getItem` yields `none` for an absent key; a present empty string is
falsy in JavaScript and also yields `[]`.  A present non-empty string is
fed to `JSON.parse`, which throws on malformed input — the `Except.error`
case — because the initializer does not catch the exception. -/
def initPreference (saved : Option String) : Except String (List Nat) :=
  match saved with
  | none => .ok []
  | some s =>
    if s = "" then .ok []
    else
      match jsonParseIds s with
      | none => .error "SyntaxError: JSON.parse"
      | some ids => .ok ids

/-- The local storage slots the application uses. -/
structure Storage where
  likedKey : Option String
  dislikedKey : Option String
deriving DecidableEq, Repr

/-- The `useEffect` that runs after every change of `likedProducts`:
`localStorage.setItem('likedProducts', JSON.stringify(likedProducts))`. -/
def persistLiked (s : AppState) (st : Storage) : Storage :=
  { st with likedKey := some (jsonStringifyIds s.likedProducts) }

/-- The `useEffect` that runs after every change of `dislikedProducts`. -/
def persistDisliked (s : AppState) (st : Storage) : Storage :=
  { st with dislikedKey := some (jsonStringifyIds s.dislikedProducts) }

/-- The provider state at mount: every list empty, filter `"all"`,
`loading` true, no error, home view, no selected product, and the two
preference lists produced by their initializers. -/
def initAppState (liked disliked : List Nat) : AppState :=
  { products := []
    categories := []
    filteredProducts := []
    currentFilter := "all"
    likedProducts := liked
    dislikedProducts := disliked
    loading := true
    error := none
    currentView := "home"
    selectedProduct := none }

/-- Outcome of one `fetch` call: a rejected promise (network failure,
carrying the thrown error's message) or a response with a success flag
and a body whose JSON decoding may itself fail. -/
inductive FetchResult (α : Type) where
  | networkError (message : String)
  | response (ok : Bool) (body : Except String α)
deriving Repr

/-- The request failed in the sense of the error-handling contract:
either the promise rejected or the response status was non-success. -/
def requestFailed {α : Type} : FetchResult α → Prop
  | .networkError _ => True
  | .response ok _ => ok = false

/-- Network error messages produced by a real `fetch` rejection are
non-empty human-readable strings. -/
def netMsgNonEmpty {α : Type} : FetchResult α → Prop
  | .networkError m => m ≠ ""
  | .response _ _ => True

/-- The `fetchData` effect: set `loading`, clear `error`, await both
requests; if either rejects or has a non-success status the thrown error
is caught and stored in `error` and no data is written; on success both
bodies are decoded and then `products`, `categories` and
`filteredProducts` are all set; `loading` is cleared in the `finally`
block on every path. -/
def fetchData (productsRes : FetchResult (List Product))
    (categoriesRes : FetchResult (List String)) (s : AppState) : AppState :=
  let s1 := { s with loading := true, error := none }
  let s2 :=
    match productsRes, categoriesRes with
    | .networkError m, _ => { s1 with error := some m }
    | _, .networkError m => { s1 with error := some m }
    | .response ok1 body1, .response ok2 body2 =>
      if !ok1 || !ok2 then { s1 with error := some "Failed to fetch data" }
      else
        match body1, body2 with
        | .error m, _ => { s1 with error := some m }
        | _, .error m => { s1 with error := some m }
        | .ok productsData, .ok categoriesData =>
          { s1 with products := productsData, categories := categoriesData,
                    filteredProducts := productsData }
  { s2 with loading := false }

/-! ## Concrete example values -/

/-- A concrete catalog product, as in the specification's end-to-end
scenario. -/
def sampleProduct : Product := { id := 1, category := "a" }

/-- A second concrete catalog product. -/
def sampleProduct2 : Product := { id := 2, category := "b" }

/-- A loaded two-product catalog state. -/
def sampleCatalogState : AppState :=
  { initAppState [] [] with
    products := [sampleProduct, sampleProduct2]
    categories := ["a", "b"]
    filteredProducts := [sampleProduct, sampleProduct2]
    loading := false }

/-- A state looking at the detail view of `sampleProduct`. -/
def detailState : AppState :=
  { initAppState [] [] with currentView := "detail", selectedProduct := some sampleProduct }

/-- A freshly mounted state whose restored dislike list is `[5]`. -/
def dislikedFiveState : AppState := initAppState [] [5]

/-! ## Lemmas about membership in the preference lists -/

theorem contains_filter_self (l : List Nat) (id : Nat) :
    (l.filter (fun x => x != id)).contains id = false := by
  simp [List.elem_iff]

theorem contains_filter_other (l : List Nat) {id j : Nat} (h : j ≠ id) :
    (l.filter (fun x => x != id)).contains j = l.contains j := by
  simp [List.contains, List.elem_iff, List.mem_filter, h]

theorem contains_append_self (l : List Nat) (id : Nat) :
    (l ++ [id]).contains id = true := by
  simp [List.elem_iff]

theorem contains_append_other (l : List Nat) {id j : Nat} (h : j ≠ id) :
    (l ++ [id]).contains j = l.contains j := by
  simp [List.contains, List.elem_iff, h]

/-- A single toggle preserves mutual exclusivity of the two lists. -/
theorem mutualExclusion_applyToggle (op : ToggleOp) {s : AppState}
    (h : mutualExclusion s) : mutualExclusion (applyToggle op s) := by
  cases op with
  | like id =>
    intro j hj
    by_cases hc : id ∈ s.likedProducts <;>
      simp [applyToggle, toggleLike, hc, List.mem_filter] at hj
    · exact h j ⟨hj.1.1, hj.2⟩
    · rcases hj with ⟨hl, hd⟩
      rcases hl with hl | rfl
      · exact h j ⟨hl, hd.1⟩
      · exact absurd rfl hd.2
  | dislike id =>
    intro j hj
    by_cases hc : id ∈ s.dislikedProducts <;>
      simp [applyToggle, toggleDislike, hc, List.mem_filter] at hj
    · exact h j ⟨hj.1, hj.2.1⟩
    · rcases hj with ⟨hl, hd⟩
      rcases hd with hd | rfl
      · exact h j ⟨hl.1, hd⟩
      · exact absurd rfl hl.2

/-- Any sequence of toggles preserves mutual exclusivity. -/
theorem mutualExclusion_applyToggles (ops : List ToggleOp) {s : AppState}
    (h : mutualExclusion s) : mutualExclusion (applyToggles ops s) := by
  induction ops generalizing s with
  | nil => exact h
  | cons op rest ih => exact ih (mutualExclusion_applyToggle op h)

/-- One toggle keeps both preference lists duplicate-free. -/
theorem nodup_applyToggle (op : ToggleOp) {s : AppState}
    (h1 : s.likedProducts.Nodup) (h2 : s.dislikedProducts.Nodup) :
    (applyToggle op s).likedProducts.Nodup ∧
    (applyToggle op s).dislikedProducts.Nodup := by
  cases op with
  | like id =>
    by_cases hc : id ∈ s.likedProducts <;>
      simp [applyToggle, toggleLike, hc]
    · exact ⟨h1.filter _, h2⟩
    · exact ⟨by simp [List.nodup_append, h1, hc], h2.filter _⟩
  | dislike id =>
    by_cases hc : id ∈ s.dislikedProducts <;>
      simp [applyToggle, toggleDislike, hc]
    · exact ⟨h1, h2.filter _⟩
    · exact ⟨h1.filter _, by simp [List.nodup_append, h2, hc]⟩

/-- Any sequence of toggles keeps both preference lists duplicate-free. -/
theorem nodup_applyToggles (ops : List ToggleOp) {s : AppState}
    (h1 : s.likedProducts.Nodup) (h2 : s.dislikedProducts.Nodup) :
    (applyToggles ops s).likedProducts.Nodup ∧
    (applyToggles ops s).dislikedProducts.Nodup := by
  induction ops generalizing s with
  | nil => exact ⟨h1, h2⟩
  | cons op rest ih =>
    obtain ⟨g1, g2⟩ := nodup_applyToggle op h1 h2
    exact ih g1 g2

/-! ## Lemmas about the JSON codec for identifier lists -/

theorem encNatCore_zero (fuel : Nat) (acc : List Char) : encNatCore fuel 0 acc = acc := by
  cases fuel <;> simp [encNatCore]

theorem encNatCore_eq_digits :
    ∀ (n fuel : Nat) (acc : List Char), n ≤ fuel →
      encNatCore fuel n acc = ((Nat.digits 10 n).map digitChar).reverse ++ acc := by
  intro n
  induction n using Nat.strong_induction_on with
  | _ n ih =>
    intro fuel acc hle
    rcases Nat.eq_zero_or_pos n with rfl | hn
    · simp [encNatCore_zero]
    · cases fuel with
      | zero => omega
      | succ f =>
        have hdiv : n / 10 < n := Nat.div_lt_self hn (by norm_num)
        rw [encNatCore, if_neg (Nat.pos_iff_ne_zero.mp hn)]
        rw [ih (n / 10) hdiv f (digitChar (n % 10) :: acc) (by omega)]
        rw [Nat.digits_def' (by norm_num : 1 < 10) hn]
        simp [List.append_assoc]

theorem encNat_eq_digits (n : Nat) (hn : n ≠ 0) :
    encNat n = ((Nat.digits 10 n).map digitChar).reverse := by
  rw [encNat, if_neg hn]
  simpa using encNatCore_eq_digits n n [] (le_refl n)

theorem encNat_ne_nil (n : Nat) : encNat n ≠ [] := by
  rcases eq_or_ne n 0 with rfl | hn
  · simp [encNat]
  · rw [encNat_eq_digits n hn]
    simp [Nat.digits_ne_nil_iff_ne_zero, hn]

theorem digitChar_isDigit {d : Nat} (h : d < 10) : (digitChar d).isDigit = true := by
  interval_cases d <;> decide

theorem charDigit_digitChar {d : Nat} (h : d < 10) : charDigit (digitChar d) = d := by
  interval_cases d <;> decide

theorem encNat_all_digits (n : Nat) : ∀ c ∈ encNat n, c.isDigit = true := by
  rcases eq_or_ne n 0 with rfl | hn
  · intro c hc
    simp [encNat] at hc
    subst hc
    decide
  · rw [encNat_eq_digits n hn]
    intro c hc
    simp [List.mem_reverse, List.mem_map] at hc
    obtain ⟨d, hd, rfl⟩ := hc
    exact digitChar_isDigit (Nat.digits_lt_base (by norm_num) hd)

theorem takeWhile_all_append (p : Char → Bool) :
    ∀ (l r : List Char), (∀ c ∈ l, p c = true) →
      (∀ c, r.head? = some c → p c = false) →
      (l ++ r).takeWhile p = l ∧ (l ++ r).dropWhile p = r := by
  intro l
  induction l with
  | nil =>
    intro r _ hr
    cases r with
    | nil => simp
    | cons c cs =>
      have := hr c rfl
      simp [List.takeWhile_cons, List.dropWhile_cons, this]
  | cons a l ih =>
    intro r hl hr
    have ha : p a = true := hl a (by simp)
    have h2 := ih r (fun c hc => hl c (by simp [hc])) hr
    simp [List.takeWhile_cons, List.dropWhile_cons, ha, h2.1, h2.2]

theorem ofDigits_encNat (n : Nat) :
    Nat.ofDigits 10 (((encNat n).map charDigit).reverse) = n := by
  rcases eq_or_ne n 0 with rfl | hn
  · simp [encNat, charDigit, Nat.ofDigits]
  · rw [encNat_eq_digits n hn, List.map_reverse, List.reverse_reverse, List.map_map]
    have hmap : (Nat.digits 10 n).map (charDigit ∘ digitChar) = Nat.digits 10 n := by
      have h1 : (Nat.digits 10 n).map (charDigit ∘ digitChar) =
          (Nat.digits 10 n).map id :=
        List.map_congr_left
          (fun d hd => charDigit_digitChar (Nat.digits_lt_base (by norm_num) hd))
      rw [h1, List.map_id]
    rw [hmap, Nat.ofDigits_digits]

theorem readNat_encNat (n : Nat) (rest : List Char)
    (hr : ∀ c, rest.head? = some c → c.isDigit = false) :
    readNat (encNat n ++ rest) = some (n, rest) := by
  obtain ⟨ht, hd⟩ :=
    takeWhile_all_append Char.isDigit (encNat n) rest (encNat_all_digits n) hr
  rw [readNat]
  simp only [ht, hd]
  rw [if_neg (by simp [List.isEmpty_iff, encNat_ne_nil n])]
  rw [ofDigits_encNat]

theorem encTail_head_not_digit (xs : List Nat) :
    ∀ c, (encTail xs).head? = some c → c.isDigit = false := by
  cases xs <;> intro c hc <;> simp [encTail] at hc <;> subst hc <;> decide

theorem encTail_length (xs : List Nat) : xs.length + 1 ≤ (encTail xs).length := by
  induction xs with
  | nil => simp [encTail]
  | cons y ys ih =>
    have h1 : 0 < (encNat y).length := List.length_pos.mpr (encNat_ne_nil y)
    simp only [encTail, List.length_cons, List.length_append]
    omega

theorem parseItemsFuel_enc :
    ∀ (xs : List Nat) (x fuel : Nat), xs.length < fuel →
      parseItemsFuel fuel (encNat x ++ encTail xs) = some (x :: xs) := by
  intro xs
  induction xs with
  | nil =>
    intro x fuel hf
    cases fuel with
    | zero => omega
    | succ f =>
      rw [parseItemsFuel]
      rw [readNat_encNat x (encTail []) (encTail_head_not_digit [])]
      simp [encTail]
  | cons y ys ih =>
    intro x fuel hf
    cases fuel with
    | zero => simp at hf
    | succ f =>
      rw [parseItemsFuel]
      rw [readNat_encNat x (encTail (y :: ys)) (encTail_head_not_digit (y :: ys))]
      simp only [encTail]
      rw [ih y f (by simp at hf; omega)]
      simp

/-- The decoder inverts the encoder: parsing a stringified identifier
list yields exactly that list. -/
theorem jsonParse_stringify (ids : List Nat) :
    jsonParseIds (jsonStringifyIds ids) = some ids := by
  cases ids with
  | nil => decide
  | cons x xs =>
    show (if Char.ofNat 91 = Char.ofNat 91
      then parseAfterBracket (encNat x ++ encTail xs) else none) = some (x :: xs)
    rw [if_pos rfl]
    rcases h : encNat x with _ | ⟨d, ds⟩
    · exact absurd h (encNat_ne_nil x)
    · have hdig : d.isDigit = true := encNat_all_digits x d (by rw [h]; simp)
      have hne : ¬(d = Char.ofNat 93) := by
        intro hq
        rw [hq] at hdig
        exact absurd hdig (by decide)
      have hcons : d :: (ds ++ encTail xs) = encNat x ++ encTail xs := by
        rw [h]; rfl
      have hred : parseAfterBracket (d :: (ds ++ encTail xs)) =
          if d = Char.ofNat 93 then (if (ds ++ encTail xs).isEmpty then some [] else none)
          else parseItemsFuel (d :: (ds ++ encTail xs)).length
            (d :: (ds ++ encTail xs)) := rfl
      rw [List.cons_append, hred, if_neg hne, hcons]
      have hlen : xs.length < (encNat x ++ encTail xs).length := by
        have h1 : 0 < (encNat x).length := List.length_pos.mpr (encNat_ne_nil x)
        have h2 := encTail_length xs
        simp only [List.length_append]
        omega
      exact parseItemsFuel_enc xs x _ hlen

/-- A fresh initializer applied to a value the app itself persisted
restores exactly the persisted identifier list. -/
theorem initPreference_stringify (l : List Nat) :
    initPreference (some (jsonStringifyIds l)) = Except.ok l := by
  have hne : jsonStringifyIds l ≠ "" := by
    intro hq
    have h1 := jsonParse_stringify l
    rw [hq] at h1
    rw [show jsonParseIds "" = none from rfl] at h1
    exact Option.noConfusion h1
  have hred : initPreference (some (jsonStringifyIds l)) =
      if jsonStringifyIds l = "" then Except.ok []
      else
        match jsonParseIds (jsonStringifyIds l) with
        | none => Except.error "SyntaxError: JSON.parse"
        | some ids => Except.ok ids := rfl
  rw [hred, if_neg hne, jsonParse_stringify]

/-! ## Claim theorems -/

/-- C1: from any store state satisfying mutual exclusivity (the empty
store trivially does, and a store restored from storage the app itself
persisted restores exactly the sets it wrote, per the persistence
round-trip property, so it does as well), every
finite sequence of toggleLike/toggleDislike calls preserves the
invariant that no identifier is in both the liked and disliked lists;
and for any id not currently liked, toggleDislike(id) followed by
toggleLike(id) leaves id in the LIKED state and absent from the
disliked list. -/
theorem liked_disliked_mutually_exclusive (s0 : AppState) (h : mutualExclusion s0)
    (ops : List ToggleOp) :
    mutualExclusion (applyToggles ops s0) ∧
    ∀ id : Nat, id ∉ (applyToggles ops s0).likedProducts →
      prefStateOf (toggleLike id (toggleDislike id (applyToggles ops s0))) id =
        PrefState.LIKED ∧
      id ∉ (toggleLike id (toggleDislike id (applyToggles ops s0))).dislikedProducts := by
  refine ⟨mutualExclusion_applyToggles ops h, ?_⟩
  intro id hid
  by_cases hd : id ∈ (applyToggles ops s0).dislikedProducts <;>
    simp [toggleDislike, toggleLike, prefStateOf, hd, hid, List.mem_filter]

/-- Witness for C1: starting from the empty store and running
toggleDislike(1); toggleLike(1), identifier 7 is not liked, and
toggleDislike(7) followed by toggleLike(7) leaves 7 LIKED and absent
from the disliked list. -/
theorem liked_disliked_mutually_exclusive_witness :
    prefStateOf (toggleLike 7 (toggleDislike 7
      (applyToggles [ToggleOp.dislike 1, ToggleOp.like 1] (initAppState [] [])))) 7 =
      PrefState.LIKED ∧
    7 ∉ (toggleLike 7 (toggleDislike 7
      (applyToggles [ToggleOp.dislike 1, ToggleOp.like 1]
        (initAppState [] [])))).dislikedProducts :=
  (liked_disliked_mutually_exclusive (initAppState [] [])
    (by simp [mutualExclusion, initAppState])
    [ToggleOp.dislike 1, ToggleOp.like 1]).2 7 (by decide)

/-- C2: on any state whose two lists are mutually exclusive for id, the
per-identifier preference follows exactly the specified transition
table: toggleLike maps NEUTRAL to LIKED, LIKED to NEUTRAL and DISLIKED
to LIKED; toggleDislike maps NEUTRAL to DISLIKED, DISLIKED to NEUTRAL
and LIKED to DISLIKED. -/
theorem toggle_transition_table (s : AppState) (id : Nat)
    (h : ¬(id ∈ s.likedProducts ∧ id ∈ s.dislikedProducts)) :
    prefStateOf (toggleLike id s) id = likeStep (prefStateOf s id) ∧
    prefStateOf (toggleDislike id s) id = dislikeStep (prefStateOf s id) := by
  by_cases hl : id ∈ s.likedProducts <;> by_cases hd : id ∈ s.dislikedProducts
  · exact absurd ⟨hl, hd⟩ h
  all_goals
    simp [toggleLike, toggleDislike, prefStateOf, likeStep, dislikeStep, hl, hd,
      List.mem_filter]

/-- Witness for C2: identifier 5 is disliked but not liked in the
concrete state, and both toggles follow the table there. -/
theorem toggle_transition_table_witness :
    prefStateOf (toggleLike 5 dislikedFiveState) 5 =
      likeStep (prefStateOf dislikedFiveState 5) ∧
    prefStateOf (toggleDislike 5 dislikedFiveState) 5 =
      dislikeStep (prefStateOf dislikedFiveState 5) :=
  toggle_transition_table dislikedFiveState 5 (by decide)

/-- C3 counterexample: the stored string "oops" fails to parse as JSON,
and the initializer then returns the propagated parse exception rather
than an empty list, so a fresh store does not initialize that set to
empty. -/
theorem initPreference_malformed_counterexample :
    jsonParseIds "oops" = none ∧
    initPreference (some "oops") = Except.error "SyntaxError: JSON.parse" ∧
    initPreference (some "oops") ≠ Except.ok [] := by
  refine ⟨by decide, rfl, ?_⟩
  rw [show initPreference (some "oops") =
    Except.error "SyntaxError: JSON.parse" from rfl]
  simp

/-- C3 amended: if the stored value is absent (or the empty string,
which is falsy) the set initializes empty; but if a present non-empty
value fails to parse as JSON, the initializer throws the parse
exception instead of starting with an empty set. -/
theorem initPreference_amended (saved : String) :
    initPreference none = Except.ok [] ∧
    initPreference (some "") = Except.ok [] ∧
    (saved ≠ "" → jsonParseIds saved = none →
      initPreference (some saved) = Except.error "SyntaxError: JSON.parse") := by
  refine ⟨rfl, rfl, ?_⟩
  intro h1 h2
  simp [initPreference, h1, h2]

/-- Witness for C3 amended: instantiated at the unparseable string. -/
theorem initPreference_amended_witness :
    initPreference (some "oops") = Except.error "SyntaxError: JSON.parse" :=
  (initPreference_amended "oops").2.2 (by decide) (by decide)

/-- C4 counterexample: for an identifier in the DISLIKED starting state,
toggleLike twice ends in NEUTRAL, not in the starting state. -/
theorem toggleLike_twice_counterexample :
    prefStateOf dislikedFiveState 5 = PrefState.DISLIKED ∧
    prefStateOf (toggleLike 5 (toggleLike 5 dislikedFiveState)) 5 ≠
      prefStateOf dislikedFiveState 5 := by decide

/-- C4 amended: toggleLike(id) twice restores the preference state for
starting states NEUTRAL and LIKED, but maps a DISLIKED start to
NEUTRAL (via LIKED), not back to DISLIKED. -/
theorem toggleLike_twice_amended (s : AppState) (id : Nat) :
    (prefStateOf s id = PrefState.NEUTRAL →
      prefStateOf (toggleLike id (toggleLike id s)) id = PrefState.NEUTRAL) ∧
    (prefStateOf s id = PrefState.LIKED →
      prefStateOf (toggleLike id (toggleLike id s)) id = PrefState.LIKED) ∧
    (prefStateOf s id = PrefState.DISLIKED →
      prefStateOf (toggleLike id (toggleLike id s)) id = PrefState.NEUTRAL) := by
  by_cases hl : id ∈ s.likedProducts <;> by_cases hd : id ∈ s.dislikedProducts <;>
    simp [toggleLike, prefStateOf, hl, hd, List.mem_filter]

/-- Witness for C4 amended: from the concrete DISLIKED state, two
toggleLike calls end NEUTRAL. -/
theorem toggleLike_twice_amended_witness :
    prefStateOf (toggleLike 5 (toggleLike 5 dislikedFiveState)) 5 = PrefState.NEUTRAL :=
  (toggleLike_twice_amended dislikedFiveState 5).2.2 (by decide)

/-- C5: filtering with the "all" sentinel exposes the full catalog
unchanged; filtering with any other category yields a sublist of the
catalog (hence order-preserving) containing exactly the products whose
category equals the filter. -/
theorem filterProducts_spec (s : AppState) (f : String) :
    (filterProducts "all" s).filteredProducts = s.products ∧
    (f ≠ "all" →
      (filterProducts f s).filteredProducts.Sublist s.products ∧
      (∀ p ∈ (filterProducts f s).filteredProducts, p.category = f) ∧
      (∀ p : Product, p ∈ (filterProducts f s).filteredProducts ↔
        p ∈ s.products ∧ p.category = f)) := by
  constructor
  · simp [filterProducts]
  · intro hf
    simp only [filterProducts, if_neg hf]
    refine ⟨List.filter_sublist _, ?_, ?_⟩
    · intro p hp
      have := List.of_mem_filter hp
      simpa using this
    · intro p
      simp [List.mem_filter]

/-- Witness for C5: filtering the concrete two-product catalog by the
category "a", which is not the sentinel. -/
theorem filterProducts_spec_witness :
    (filterProducts "a" sampleCatalogState).filteredProducts.Sublist
      sampleCatalogState.products ∧
    (∀ p ∈ (filterProducts "a" sampleCatalogState).filteredProducts, p.category = "a") ∧
    (∀ p : Product, p ∈ (filterProducts "a" sampleCatalogState).filteredProducts ↔
      p ∈ sampleCatalogState.products ∧ p.category = "a") :=
  (filterProducts_spec sampleCatalogState "a").2 (by decide)

/-- C6: if either startup request fails (network error with its
non-empty message, or a non-success response status), `fetchData` on a
fresh state ends with a non-empty error message, the products,
categories and filtered lists still empty, and loading cleared. -/
theorem fetchData_failure_state (productsRes : FetchResult (List Product))
    (categoriesRes : FetchResult (List String)) (s : AppState)
    (hp : s.products = []) (hc : s.categories = []) (hf : s.filteredProducts = [])
    (hm1 : netMsgNonEmpty productsRes) (hm2 : netMsgNonEmpty categoriesRes)
    (hfail : requestFailed productsRes ∨ requestFailed categoriesRes) :
    ∃ m : String, (fetchData productsRes categoriesRes s).error = some m ∧ m ≠ "" ∧
      (fetchData productsRes categoriesRes s).products = [] ∧
      (fetchData productsRes categoriesRes s).categories = [] ∧
      (fetchData productsRes categoriesRes s).filteredProducts = [] ∧
      (fetchData productsRes categoriesRes s).loading = false := by
  cases productsRes with
  | networkError m =>
    exact ⟨m, by simp [fetchData], hm1, by simp [fetchData, hp],
      by simp [fetchData, hc], by simp [fetchData, hf], by simp [fetchData]⟩
  | response ok1 body1 =>
    cases categoriesRes with
    | networkError m =>
      exact ⟨m, by simp [fetchData], hm2, by simp [fetchData, hp],
        by simp [fetchData, hc], by simp [fetchData, hf], by simp [fetchData]⟩
    | response ok2 body2 =>
      have hok : (!ok1 || !ok2) = true := by
        rcases hfail with h | h
        · simp [requestFailed] at h
          simp [h]
        · simp [requestFailed] at h
          simp [h]
      exact ⟨"Failed to fetch data", by simp [fetchData, hok], by decide,
        by simp [fetchData, hok, hp], by simp [fetchData, hok, hc],
        by simp [fetchData, hok, hf], by simp [fetchData]⟩

/-- Witness for C6: the products request returns a non-success status
against the freshly mounted empty state. -/
theorem fetchData_failure_state_witness :
    ∃ m : String, (fetchData (FetchResult.response false (Except.ok []))
        (FetchResult.response true (Except.ok [])) (initAppState [] [])).error = some m ∧
      m ≠ "" ∧
      (fetchData (FetchResult.response false (Except.ok []))
        (FetchResult.response true (Except.ok [])) (initAppState [] [])).products = [] ∧
      (fetchData (FetchResult.response false (Except.ok []))
        (FetchResult.response true (Except.ok [])) (initAppState [] [])).categories = [] ∧
      (fetchData (FetchResult.response false (Except.ok []))
        (FetchResult.response true (Except.ok []))
          (initAppState [] [])).filteredProducts = [] ∧
      (fetchData (FetchResult.response false (Except.ok []))
        (FetchResult.response true (Except.ok [])) (initAppState [] [])).loading = false :=
  fetchData_failure_state (FetchResult.response false (Except.ok []))
    (FetchResult.response true (Except.ok [])) (initAppState [] [])
    rfl rfl rfl trivial trivial (Or.inl rfl)

/-- C7: the persistence effects write the serialized current lists
under their fixed keys, overwriting whatever the storage held before,
and a fresh store's initializers applied to that persisted storage
restore exactly the same liked and disliked lists. -/
theorem persistence_roundtrip (s : AppState) (st : Storage) :
    (persistDisliked s (persistLiked s st)).likedKey =
      some (jsonStringifyIds s.likedProducts) ∧
    (persistDisliked s (persistLiked s st)).dislikedKey =
      some (jsonStringifyIds s.dislikedProducts) ∧
    initPreference (persistDisliked s (persistLiked s st)).likedKey =
      Except.ok s.likedProducts ∧
    initPreference (persistDisliked s (persistLiked s st)).dislikedKey =
      Except.ok s.dislikedProducts :=
  ⟨rfl, rfl, initPreference_stringify s.likedProducts,
    initPreference_stringify s.dislikedProducts⟩

/-- C8 counterexample: with a product selected, navigating to the
non-detail home view does not retain the previously selected product;
the call overwrites it with the omitted-argument default null. -/
theorem navigateTo_counterexample :
    detailState.selectedProduct = some sampleProduct ∧
    (navigateTo "home" none detailState).currentView = "home" ∧
    (navigateTo "home" none detailState).selectedProduct ≠ detailState.selectedProduct := by
  refine ⟨rfl, rfl, ?_⟩
  decide

/-- C8 amended: navigate(view, product?) sets the active view to view
and unconditionally sets the selected product reference to the passed
product (null when omitted) for every view, so navigating to a
non-detail view clears any previously selected product; all other state
fields are unchanged. -/
theorem navigateTo_amended (view : String) (product : Option Product) (s : AppState) :
    (navigateTo view product s).currentView = view ∧
    (navigateTo view product s).selectedProduct = product ∧
    (navigateTo view product s).products = s.products ∧
    (navigateTo view product s).categories = s.categories ∧
    (navigateTo view product s).filteredProducts = s.filteredProducts ∧
    (navigateTo view product s).currentFilter = s.currentFilter ∧
    (navigateTo view product s).likedProducts = s.likedProducts ∧
    (navigateTo view product s).dislikedProducts = s.dislikedProducts ∧
    (navigateTo view product s).loading = s.loading ∧
    (navigateTo view product s).error = s.error := by
  simp [navigateTo]

/-- C9: toggling one identifier leaves every other identifier's
preference state unchanged and does not modify the products,
categories, filteredProducts, currentFilter, currentView or
selectedProduct fields. -/
theorem toggle_frame (s : AppState) (id j : Nat) (h : j ≠ id) :
    prefStateOf (toggleLike id s) j = prefStateOf s j ∧
    prefStateOf (toggleDislike id s) j = prefStateOf s j ∧
    (toggleLike id s).products = s.products ∧
    (toggleLike id s).categories = s.categories ∧
    (toggleLike id s).filteredProducts = s.filteredProducts ∧
    (toggleLike id s).currentFilter = s.currentFilter ∧
    (toggleLike id s).currentView = s.currentView ∧
    (toggleLike id s).selectedProduct = s.selectedProduct ∧
    (toggleDislike id s).products = s.products ∧
    (toggleDislike id s).categories = s.categories ∧
    (toggleDislike id s).filteredProducts = s.filteredProducts ∧
    (toggleDislike id s).currentFilter = s.currentFilter ∧
    (toggleDislike id s).currentView = s.currentView ∧
    (toggleDislike id s).selectedProduct = s.selectedProduct := by
  by_cases hl : id ∈ s.likedProducts <;> by_cases hd : id ∈ s.dislikedProducts <;>
    by_cases hjl : j ∈ s.likedProducts <;> by_cases hjd : j ∈ s.dislikedProducts <;>
      simp [toggleLike, toggleDislike, prefStateOf, hl, hd, hjl, hjd,
        List.mem_filter, h]

/-- Witness for C9: toggling identifier 1 leaves identifier 2's
preference unchanged in the concrete state. -/
theorem toggle_frame_witness :
    prefStateOf (toggleLike 1 dislikedFiveState) 2 = prefStateOf dislikedFiveState 2 :=
  (toggle_frame dislikedFiveState 1 2 (by decide)).1

/-- C10: starting from duplicate-free liked and disliked lists, every
finite sequence of toggles keeps both lists duplicate-free, so the
length of the liked list equals the number of distinct liked
products. -/
theorem toggles_preserve_nodup (s : AppState) (ops : List ToggleOp)
    (h1 : s.likedProducts.Nodup) (h2 : s.dislikedProducts.Nodup) :
    (applyToggles ops s).likedProducts.Nodup ∧
    (applyToggles ops s).dislikedProducts.Nodup ∧
    (applyToggles ops s).likedProducts.length =
      (applyToggles ops s).likedProducts.dedup.length := by
  obtain ⟨g1, g2⟩ := nodup_applyToggles ops h1 h2
  exact ⟨g1, g2, by rw [List.dedup_eq_self.mpr g1]⟩

/-- Witness for C10: a like and a dislike applied to the empty store. -/
theorem toggles_preserve_nodup_witness :
    (applyToggles [ToggleOp.like 1, ToggleOp.dislike 2]
      (initAppState [] [])).likedProducts.Nodup ∧
    (applyToggles [ToggleOp.like 1, ToggleOp.dislike 2]
      (initAppState [] [])).dislikedProducts.Nodup ∧
    (applyToggles [ToggleOp.like 1, ToggleOp.dislike 2]
      (initAppState [] [])).likedProducts.length =
      (applyToggles [ToggleOp.like 1, ToggleOp.dislike 2]
        (initAppState [] [])).likedProducts.dedup.length :=
  toggles_preserve_nodup (initAppState [] []) [ToggleOp.like 1, ToggleOp.dislike 2]
    (by decide) (by decide)
